import Mathlib

/-!
Shallow embedding of `src/bno055_publisher.cpp` (bno055_ros2): a ROS 2 node
that samples a BNO055 IMU every 10 ms and republishes the readings as a
`sensor_msgs::msg::Imu` message, with per-tick reconnect recovery and a
supervisor loop in `main` that retries node construction.

Doubles are modelled as exact rationals: every claim settled here is about
which field receives which of a handful of distinct constants (or zero),
never about rounding, so the choice of an exact numeric carrier is faithful.
The sensor driver (`bno055.hpp`) is an external collaborator: its three reads
and `reconnect()` appear as per-tick oracle inputs, exactly as the spec's
SensorHandle contract describes them (a read either yields a value or raises
the recoverable-connection error; `reconnect` yields a boolean).
-/

namespace BNO055

/-- A 3-component double vector, as returned by `getAccelMsq` / `getGyroRps`
and as stored in the message fields `linear_acceleration` / `angular_velocity`. -/
structure Vec3 where
  x : ℚ
  y : ℚ
  z : ℚ
deriving DecidableEq, Repr

/-- A quaternion, as returned by `getQuaternion` and stored in `orientation`. -/
structure Quaternion where
  w : ℚ
  x : ℚ
  y : ℚ
  z : ℚ
deriving DecidableEq, Repr

/-- `std_msgs::msg::Header`: the stamp (modelled as a natural clock value)
and the frame id string. -/
structure Header where
  stamp : ℕ
  frame_id : String
deriving DecidableEq, Repr

/-- `sensor_msgs::msg::Imu`: header, the three measurement fields and the
three row-major 3x3 covariance arrays (modelled as 9-element lists). -/
structure ImuMsg where
  header : Header
  orientation : Quaternion
  orientation_covariance : List ℚ
  angular_velocity : Vec3
  angular_velocity_covariance : List ℚ
  linear_acceleration : Vec3
  linear_acceleration_covariance : List ℚ
deriving DecidableEq, Repr

/-- Zero vector: the message default constructor zero-initializes all fields. -/
def Vec3.zero : Vec3 := ⟨0, 0, 0⟩

/-- Zero quaternion (message default). -/
def Quaternion.zero : Quaternion := ⟨0, 0, 0, 0⟩

/-- `sensor_msgs::msg::Imu()` default: all numeric fields zero, empty frame id. -/
def ImuMsg.zeroMsg : ImuMsg :=
  { header := { stamp := 0, frame_id := "" }
    orientation := Quaternion.zero
    orientation_covariance := List.replicate 9 0
    angular_velocity := Vec3.zero
    angular_velocity_covariance := List.replicate 9 0
    linear_acceleration := Vec3.zero
    linear_acceleration_covariance := List.replicate 9 0 }

/-- `constexpr std::array accelCovariance = { 67.53e-06, 67.53e-06, 67.53e-06 }`
(line 28); 67.53e-06 as an exact rational. -/
def accelCovariance : List ℚ := [6753 / 100000000, 6753 / 100000000, 6753 / 100000000]

/-- `constexpr std::array gyroCovariance = { 3.05e-06, 3.05e-06, 3.05e-06 }` (line 29). -/
def gyroCovariance : List ℚ := [305 / 100000000, 305 / 100000000, 305 / 100000000]

/-- `constexpr std::array quatCovariance = { 15.9e-03, 15.9e-03, 15.9e-03 }` (line 30). -/
def quatCovariance : List ℚ := [159 / 10000, 159 / 10000, 159 / 10000]

/-- Body of the constructor's covariance loop at index `i` (lines 32-42):
`if (i % 3 == 0) cov[i] = c[i / 3]; else cov[i] = 0;`. -/
def covEntry (c : List ℚ) (i : ℕ) : ℚ :=
  if i % 3 == 0 then c.getD (i / 3) 0 else 0

/-- The constructor loop `for (size_t i = 0; i < 9; i++)` writes each of the
nine entries of a covariance array exactly once, from `covEntry`. -/
def initCovariance (c : List ℚ) : List ℚ :=
  (List.range 9).map (covEntry c)

/-- Member default initializer `std::string frameId_ { "imu_link" }` (line 84). -/
def defaultFrameId : String := "imu_link"

/-- `this->declare_parameter("frame_id", frameId_)` (line 21): the parameter
collaborator either supplies an override or yields the passed default. -/
def resolveFrameId (paramOverride : Option String) : String :=
  paramOverride.getD defaultFrameId

/-- The state a constructed `MinimalPublisher` owns that the claims concern:
the reused message buffer `imuMsg_` and the resolved `frameId_`. -/
structure PublisherState where
  imuMsg : ImuMsg
  frameId : String
deriving DecidableEq, Repr

/-- `MinimalPublisher::MinimalPublisher` (lines 18-43), run only when the
sensor open in the member initializer succeeds: resolves `frame_id` from the
parameter collaborator and runs the covariance-filling loop over the
default-constructed message buffer. -/
def construct (paramOverride : Option String) : PublisherState :=
  { imuMsg := { ImuMsg.zeroMsg with
      angular_velocity_covariance := initCovariance gyroCovariance
      linear_acceleration_covariance := initCovariance accelCovariance
      orientation_covariance := initCovariance quatCovariance }
    frameId := resolveFrameId paramOverride }

/-- Per-tick oracle for the external collaborators: the clock value
`get_clock()->now()`, the outcome of each of the three sensor reads
(`none` models the read raising the recoverable-connection
`std::runtime_error`), and what `reconnect()` would return if called. -/
structure TickInput where
  now : ℕ
  accelRead : Option Vec3
  gyroRead : Option Vec3
  quatRead : Option Quaternion
  reconnectOk : Bool
deriving DecidableEq, Repr

/-- Observable effects of one `timer_callback` invocation: the message handed
to `publisher_->publish` (if any), how many times `imu_.reconnect()` was
called, and how many time units `std::this_thread::sleep_for` blocked. -/
structure TickEffects where
  published : Option ImuMsg
  reconnectCalls : ℕ
  sleptUnits : ℕ
deriving DecidableEq, Repr

/-- `MinimalPublisher::timer_callback` (lines 46-78). The try block stamps
the header first, then performs the three reads in order; the first failing
read jumps to the catch handler, which calls `reconnect()` once and sleeps
one time unit exactly when it returned false. Only when all three reads
succeed are the measurement fields overwritten and the buffer published. -/
def timer_callback (frameId : String) (t : TickInput) (msg : ImuMsg) :
    ImuMsg × TickEffects :=
  let stamped : ImuMsg := { msg with header := { stamp := t.now, frame_id := frameId } }
  let caught : ImuMsg × TickEffects :=
    (stamped, { published := none, reconnectCalls := 1,
                sleptUnits := if t.reconnectOk then 0 else 1 })
  match t.accelRead with
  | none => caught
  | some accel =>
    match t.gyroRead with
    | none => caught
    | some gyro =>
      match t.quatRead with
      | none => caught
      | some quats =>
        let filled : ImuMsg := { stamped with
          linear_acceleration := ⟨accel.x, accel.y, accel.z⟩
          angular_velocity := ⟨gyro.x, gyro.y, gyro.z⟩
          orientation := ⟨quats.w, quats.x, quats.y, quats.z⟩ }
        (filled, { published := some filled, reconnectCalls := 0, sleptUnits := 0 })

/-- A run of the periodic timer: fold `timer_callback` over a list of tick
oracles, returning the final buffer state and, per tick, the oracle paired
with that tick's observable effects. -/
def runTicks (frameId : String) (msg : ImuMsg) :
    List TickInput → ImuMsg × List (TickInput × TickEffects)
  | [] => (msg, [])
  | t :: ts =>
    let step := timer_callback frameId t msg
    let rest := runTicks frameId step.1 ts
    (rest.1, (t, step.2) :: rest.2)

/-- The two ways `std::stoul` fails: `std::invalid_argument` when no digits
can be converted, `std::out_of_range` when the converted value does not fit
in `unsigned long`. -/
inductive StoulError where
  | invalidArgument
  | outOfRange
deriving DecidableEq, Repr

/-- `ULONG_MAX` on the 64-bit targets this node builds for. -/
def ULONG_MAX : ℕ := 2 ^ 64 - 1

/-- Value of one hexadecimal digit character, `none` for a non-digit. -/
def hexDigit? (c : Char) : Option ℕ :=
  if '0' ≤ c ∧ c ≤ '9' then some (c.toNat - Char.toNat '0')
  else if 'a' ≤ c ∧ c ≤ 'f' then some (c.toNat - Char.toNat 'a' + 10)
  else if 'A' ≤ c ∧ c ≤ 'F' then some (c.toNat - Char.toNat 'A' + 10)
  else none

/-- Longest initial run of hexadecimal digits, as digit values (base-16
conversion stops at the first non-digit; trailing characters are ignored,
as `std::stoul` with a null end pointer ignores them). -/
def takeHexDigits : List Char → List ℕ
  | [] => []
  | c :: cs =>
    match hexDigit? c with
    | some d => d :: takeHexDigits cs
    | none => []

/-- Drop an optional `0x` / `0X` marker, accepted by base-16 `strtoul` when a
hex digit follows it. -/
def stripHexMarker (cs : List Char) : List Char :=
  match cs with
  | '0' :: x :: rest =>
    if (x = 'x' ∨ x = 'X') ∧ (hexDigit? (rest.headD ' ')).isSome then rest else cs
  | _ => cs

/-- `std::stoul(s, nullptr, 16)` (line 100): skip leading whitespace, accept
an optional `0x` marker, convert the longest run of hex digits.
`std::invalid_argument` when no digit converts; `std::out_of_range` when the
mathematical value exceeds `ULONG_MAX`. (The sign handling of `strtoul` is
not modelled; no claim involves a signed input.) -/
def stoul16 (s : String) : Except StoulError ℕ :=
  let cs := s.data.dropWhile (fun c => c = ' ' ∨ c = '\t' ∨ c = '\n')
  let ds := takeHexDigits (stripHexMarker cs)
  if ds.isEmpty then Except.error StoulError.invalidArgument
  else
    let v := ds.foldl (fun acc d => acc * 16 + d) 0
    if ULONG_MAX < v then Except.error StoulError.outOfRange else Except.ok v

/-- How the startup section of `main` (lines 87-111) leaves the process:
an error exit before the supervisor loop, an uncaught `std::out_of_range`
escaping the `catch (std::invalid_argument&)` handler, or falling through to
the supervisor loop with the parsed device address. -/
inductive StartupResult where
  | exitError
  | uncaughtOutOfRange
  | proceed (devAddress : ℕ)
deriving DecidableEq, Repr

/-- Startup argument handling of `main` (lines 87-111): `argc != 3` exits
with -1; `std::stoul(argv[2], nullptr, 16)` inside a try block whose handler
catches only `std::invalid_argument` (exit -1); a converted value above
`std::numeric_limits<uint8_t>::max() = 255` exits with -1; otherwise the
address is narrowed to `uint8_t` and control reaches the supervisor loop. -/
def startup (args : List String) : StartupResult :=
  if args.length ≠ 3 then StartupResult.exitError
  else
    match stoul16 (args.getD 2 "") with
    | Except.error StoulError.invalidArgument => StartupResult.exitError
    | Except.error StoulError.outOfRange => StartupResult.uncaughtOutOfRange
    | Except.ok v =>
      if 255 < v then StartupResult.exitError else StartupResult.proceed v

/-- Oracle for one iteration of the supervisor loop: whether `rclcpp::ok()`
holds at the loop head, and whether `MinimalPublisher` construction (whose
member initializer opens the sensor) would succeed this iteration. -/
structure IterEnv where
  ok : Bool
  constructOk : Bool
deriving DecidableEq, Repr

/-- Observable trace of the supervisor loop (lines 113-125): how many
constructions (each making exactly one sensor-open attempt) were attempted,
how many succeeded, the largest number of `MinimalPublisher` instances live
at any single moment, and whether a node is held when the loop exits. -/
structure SupTrace where
  openAttempts : ℕ
  nodesConstructed : ℕ
  maxLiveNodes : ℕ
  finalNodeLive : Bool
deriving DecidableEq, Repr

/-- The supervisor loop of `main` (lines 113-125):
`while (rclcpp::ok()) { try { node = std::make_shared<MinimalPublisher>(...); }
catch (std::runtime_error&) { log } sleep_for(1s); }`. There is no break after
a successful construction, so every iteration with `ok` true attempts one
more construction; on a success while `node` already holds an instance, the
new node is fully constructed (its sensor open) before the assignment
releases the old one, so two instances are live at that moment. The `node`
argument records whether an instance is currently held. -/
def supervisorRun : List IterEnv → Bool → SupTrace
  | [], node =>
    { openAttempts := 0, nodesConstructed := 0
      maxLiveNodes := if node then 1 else 0, finalNodeLive := node }
  | e :: es, node =>
    if e.ok then
      let liveHere : ℕ := (if node then 1 else 0) + (if e.constructOk then 1 else 0)
      let rest := supervisorRun es (if e.constructOk then true else node)
      { openAttempts := rest.openAttempts + 1
        nodesConstructed := rest.nodesConstructed + (if e.constructOk then 1 else 0)
        maxLiveNodes := max liveHere rest.maxLiveNodes
        finalNodeLive := rest.finalNodeLive }
    else
      { openAttempts := 0, nodesConstructed := 0
        maxLiveNodes := if node then 1 else 0, finalNodeLive := node }

/-- Process-level outcome of `main`: `exitCode = some c` is a normal return
with code `c`; `exitCode = none` is abnormal termination by an uncaught
exception. `openAttempts` counts sensor-open attempts over the whole run. -/
structure MainResult where
  exitCode : Option ℤ
  openAttempts : ℕ
deriving DecidableEq, Repr

/-- `main` (lines 87-129): startup checks, then the supervisor loop driven by
the `rclcpp::ok()` / construction oracles, then `return 0`. Sensor-open
attempts happen only inside `MinimalPublisher` construction, so a startup
exit makes none. -/
def mainRun (args : List String) (env : List IterEnv) : MainResult :=
  match startup args with
  | StartupResult.exitError => { exitCode := some (-1), openAttempts := 0 }
  | StartupResult.uncaughtOutOfRange => { exitCode := none, openAttempts := 0 }
  | StartupResult.proceed _ =>
    { exitCode := some 0, openAttempts := (supervisorRun env false).openAttempts }

/-! Helper lemmas shared by the claim theorems. -/

/-- A tick publishes a message only when all three reads of that same tick
succeeded, and the published buffer's measurement fields are exactly those
read values, its header the stamp and frame id written at the top of the
try block. -/
theorem published_fields_eq (f : String) (t : TickInput) (msg out : ImuMsg)
    (h : (timer_callback f t msg).2.published = some out) :
    t.accelRead = some out.linear_acceleration ∧
    t.gyroRead = some out.angular_velocity ∧
    t.quatRead = some out.orientation ∧
    out.header.stamp = t.now ∧ out.header.frame_id = f := by
  rcases t with ⟨now, ar, gr, qr, rc⟩
  rcases ar with _ | a
  · simp [timer_callback] at h
  rcases gr with _ | g
  · simp [timer_callback] at h
  rcases qr with _ | q
  · simp [timer_callback] at h
  rcases a with ⟨ax, ay, az⟩
  rcases g with ⟨gx, gy, gz⟩
  rcases q with ⟨qw, qx, qy, qz⟩
  simp only [timer_callback, Option.some.injEq] at h
  subst h
  simp

/-- A tick on which some read fails publishes nothing, calls reconnect once,
sleeps one unit exactly when reconnect failed, and leaves every field of the
buffer other than the header untouched. -/
theorem failing_tick_effects (f : String) (t : TickInput) (msg : ImuMsg)
    (hfail : t.accelRead = none ∨ t.gyroRead = none ∨ t.quatRead = none) :
    timer_callback f t msg =
      ({ msg with header := { stamp := t.now, frame_id := f } },
       { published := none, reconnectCalls := 1,
         sleptUnits := if t.reconnectOk then 0 else 1 }) := by
  rcases t with ⟨now, ar, gr, qr, rc⟩
  rcases ar with _ | a
  · simp [timer_callback]
  rcases gr with _ | g
  · simp [timer_callback]
  rcases qr with _ | q
  · simp [timer_callback]
  simp at hfail

/-- A tick on which all three reads succeed publishes exactly the updated
buffer, whose measurement fields are the read values and whose header carries
this tick's stamp and the given frame id; no reconnect, no sleep. -/
theorem success_tick_effects (f : String) (t : TickInput) (msg : ImuMsg)
    (a g : Vec3) (q : Quaternion)
    (ha : t.accelRead = some a) (hg : t.gyroRead = some g)
    (hq : t.quatRead = some q) :
    timer_callback f t msg =
      ({ msg with
          header := { stamp := t.now, frame_id := f }
          linear_acceleration := a
          angular_velocity := g
          orientation := q },
       { published := some { msg with
            header := { stamp := t.now, frame_id := f }
            linear_acceleration := a
            angular_velocity := g
            orientation := q }
         reconnectCalls := 0
         sleptUnits := 0 }) := by
  rcases t with ⟨now, ar, gr, qr, rc⟩
  rcases a with ⟨ax, ay, az⟩
  rcases g with ⟨gx, gy, gz⟩
  rcases q with ⟨qw, qx, qy, qz⟩
  subst ha hg hq
  simp [timer_callback]

/-- Every per-tick effect recorded by a run arose from `timer_callback`
applied to that tick's own oracle and some intermediate buffer state. -/
theorem runTicks_effects_mem (f : String) :
    ∀ (ts : List TickInput) (msg : ImuMsg) (p : TickInput × TickEffects),
      p ∈ (runTicks f msg ts).2 →
      ∃ m0, p.2 = (timer_callback f p.1 m0).2 := by
  intro ts
  induction ts with
  | nil =>
    intro msg p hp
    simp [runTicks] at hp
  | cons t ts ih =>
    intro msg p hp
    simp only [runTicks, List.mem_cons] at hp
    rcases hp with h | h
    · exact ⟨msg, by rw [h]⟩
    · exact ih (timer_callback f t msg).1 p h

/-! Claim theorems. -/

/-- C4: on every tick where one of the three sensor reads raises the
recoverable-connection error, no message is published, `reconnect()` is
invoked exactly once, and the tick sleeps the fixed 1-unit cooldown exactly
when `reconnect()` returned false (returning immediately when it returned
true). The policy holds for every buffer state, independent of any failure
history, so recovery is retried on every failing tick without a bounded
retry count; and any later tick whose three reads succeed publishes again
(sampling resumes on the first tick after recovery). -/
theorem claim_C4_failing_tick_reconnect_policy (f : String) (t : TickInput)
    (msg : ImuMsg)
    (hfail : t.accelRead = none ∨ t.gyroRead = none ∨ t.quatRead = none) :
    (timer_callback f t msg).2.published = none ∧
    (timer_callback f t msg).2.reconnectCalls = 1 ∧
    ((timer_callback f t msg).2.sleptUnits = if t.reconnectOk then 0 else 1) ∧
    (∀ t2 a g q, t2.accelRead = some a → t2.gyroRead = some g →
      t2.quatRead = some q →
      ((timer_callback f t2 (timer_callback f t msg).1).2.published).isSome
        = true) := by
  have h := failing_tick_effects f t msg hfail
  refine ⟨by rw [h], by rw [h], by rw [h], ?_⟩
  intro t2 a g q ha hg hq
  rw [success_tick_effects f t2 _ a g q ha hg hq]
  rfl

/-- Witness for C4 at a concrete failing tick with a failing reconnect. -/
theorem claim_C4_witness :
    (timer_callback "imu_link" ⟨5, none, none, none, false⟩
      ImuMsg.zeroMsg).2.published = none ∧
    (timer_callback "imu_link" ⟨5, none, none, none, false⟩
      ImuMsg.zeroMsg).2.reconnectCalls = 1 :=
  ⟨(claim_C4_failing_tick_reconnect_policy "imu_link" ⟨5, none, none, none, false⟩
      ImuMsg.zeroMsg (Or.inl rfl)).1,
   (claim_C4_failing_tick_reconnect_policy "imu_link" ⟨5, none, none, none, false⟩
      ImuMsg.zeroMsg (Or.inl rfl)).2.1⟩

/-- C5: on every tick where all three reads succeed, exactly one message is
published (the updated buffer), its measurement fields equal that tick's
three read values, its frame id is the value resolved at construction from
the parameter collaborator, and its stamp is that tick's clock value; no
reconnect call and no sleep occur on such a tick. -/
theorem claim_C5_success_tick_publishes (param : Option String) (t : TickInput)
    (msg : ImuMsg) (a g : Vec3) (q : Quaternion)
    (ha : t.accelRead = some a) (hg : t.gyroRead = some g)
    (hq : t.quatRead = some q) :
    (timer_callback (construct param).frameId t msg).2.published
      = some ((timer_callback (construct param).frameId t msg).1) ∧
    ((timer_callback (construct param).frameId t msg).1).linear_acceleration = a ∧
    ((timer_callback (construct param).frameId t msg).1).angular_velocity = g ∧
    ((timer_callback (construct param).frameId t msg).1).orientation = q ∧
    ((timer_callback (construct param).frameId t msg).1).header.frame_id
      = resolveFrameId param ∧
    ((timer_callback (construct param).frameId t msg).1).header.stamp = t.now ∧
    (timer_callback (construct param).frameId t msg).2.reconnectCalls = 0 ∧
    (timer_callback (construct param).frameId t msg).2.sleptUnits = 0 := by
  rw [success_tick_effects _ t msg a g q ha hg hq]
  exact ⟨rfl, rfl, rfl, rfl, rfl, rfl, rfl, rfl⟩

/-- Witness for C5 at a concrete all-reads-succeed tick. -/
theorem claim_C5_witness :
    (timer_callback (construct none).frameId
      ⟨7, some ⟨1, 2, 3⟩, some ⟨4, 5, 6⟩, some ⟨1, 0, 0, 0⟩, true⟩
      ImuMsg.zeroMsg).2.published
      = some ((timer_callback (construct none).frameId
          ⟨7, some ⟨1, 2, 3⟩, some ⟨4, 5, 6⟩, some ⟨1, 0, 0, 0⟩, true⟩
          ImuMsg.zeroMsg).1) ∧
    ((timer_callback (construct none).frameId
      ⟨7, some ⟨1, 2, 3⟩, some ⟨4, 5, 6⟩, some ⟨1, 0, 0, 0⟩, true⟩
      ImuMsg.zeroMsg).1).linear_acceleration = ⟨1, 2, 3⟩ :=
  ⟨(claim_C5_success_tick_publishes none
      ⟨7, some ⟨1, 2, 3⟩, some ⟨4, 5, 6⟩, some ⟨1, 0, 0, 0⟩, true⟩
      ImuMsg.zeroMsg ⟨1, 2, 3⟩ ⟨4, 5, 6⟩ ⟨1, 0, 0, 0⟩ rfl rfl rfl).1,
   (claim_C5_success_tick_publishes none
      ⟨7, some ⟨1, 2, 3⟩, some ⟨4, 5, 6⟩, some ⟨1, 0, 0, 0⟩, true⟩
      ImuMsg.zeroMsg ⟨1, 2, 3⟩ ⟨4, 5, 6⟩ ⟨1, 0, 0, 0⟩ rfl rfl rfl).2.1⟩

/-- C9: on a tick where a sensor read fails, the reused buffer's header has
nevertheless been overwritten with this tick's stamp and frame id (the
header is stamped before the reads), every other field — measurement vectors
and covariance arrays — is exactly what it was before the tick, and nothing
is published. -/
theorem claim_C9_failing_tick_buffer (f : String) (t : TickInput)
    (msg : ImuMsg)
    (hfail : t.accelRead = none ∨ t.gyroRead = none ∨ t.quatRead = none) :
    (timer_callback f t msg).1.header = { stamp := t.now, frame_id := f } ∧
    (timer_callback f t msg).1.linear_acceleration = msg.linear_acceleration ∧
    (timer_callback f t msg).1.angular_velocity = msg.angular_velocity ∧
    (timer_callback f t msg).1.orientation = msg.orientation ∧
    (timer_callback f t msg).1.linear_acceleration_covariance
      = msg.linear_acceleration_covariance ∧
    (timer_callback f t msg).1.angular_velocity_covariance
      = msg.angular_velocity_covariance ∧
    (timer_callback f t msg).1.orientation_covariance
      = msg.orientation_covariance ∧
    (timer_callback f t msg).2.published = none := by
  have h := failing_tick_effects f t msg hfail
  rw [h]
  exact ⟨rfl, rfl, rfl, rfl, rfl, rfl, rfl, rfl⟩

/-- Witness for C9: a failing tick over the buffer as constructed leaves its
covariance array untouched while the header takes the tick's stamp. -/
theorem claim_C9_witness :
    (timer_callback "imu_link" ⟨9, none, none, none, true⟩
      (construct none).imuMsg).1.header = { stamp := 9, frame_id := "imu_link" } ∧
    (timer_callback "imu_link" ⟨9, none, none, none, true⟩
      (construct none).imuMsg).1.angular_velocity_covariance
      = (construct none).imuMsg.angular_velocity_covariance :=
  ⟨(claim_C9_failing_tick_buffer "imu_link" ⟨9, none, none, none, true⟩
      (construct none).imuMsg (Or.inl rfl)).1,
   (claim_C9_failing_tick_buffer "imu_link" ⟨9, none, none, none, true⟩
      (construct none).imuMsg (Or.inl rfl)).2.2.2.2.2.1⟩

/-- C6: in every run, every published message is fully populated from the
publishing tick's own three successful reads — each measurement field equals
the value that tick's read returned — so no published message mixes a sample
taken before a disconnect with one taken after, and no partially populated
message is ever published. -/
theorem claim_C6_no_partial_messages (f : String) (msg : ImuMsg)
    (ts : List TickInput) :
    ∀ p ∈ (runTicks f msg ts).2, ∀ out, p.2.published = some out →
      p.1.accelRead = some out.linear_acceleration ∧
      p.1.gyroRead = some out.angular_velocity ∧
      p.1.quatRead = some out.orientation := by
  intro p hp out hout
  obtain ⟨m0, hm⟩ := runTicks_effects_mem f ts msg p hp
  rw [hm] at hout
  have h := published_fields_eq f p.1 m0 out hout
  exact ⟨h.1, h.2.1, h.2.2.1⟩

/-- Witness for C6 on a one-tick run with successful reads. -/
theorem claim_C6_witness :
    (⟨7, some ⟨1, 2, 3⟩, some ⟨4, 5, 6⟩, some ⟨1, 0, 0, 0⟩, true⟩
        : TickInput).accelRead
      = some ((timer_callback "imu_link"
          ⟨7, some ⟨1, 2, 3⟩, some ⟨4, 5, 6⟩, some ⟨1, 0, 0, 0⟩, true⟩
          ImuMsg.zeroMsg).1.linear_acceleration) :=
  (claim_C6_no_partial_messages "imu_link" ImuMsg.zeroMsg
    [⟨7, some ⟨1, 2, 3⟩, some ⟨4, 5, 6⟩, some ⟨1, 0, 0, 0⟩, true⟩]
    (⟨7, some ⟨1, 2, 3⟩, some ⟨4, 5, 6⟩, some ⟨1, 0, 0, 0⟩, true⟩,
      (timer_callback "imu_link"
        ⟨7, some ⟨1, 2, 3⟩, some ⟨4, 5, 6⟩, some ⟨1, 0, 0, 0⟩, true⟩
        ImuMsg.zeroMsg).2)
    (by simp [runTicks])
    ((timer_callback "imu_link"
        ⟨7, some ⟨1, 2, 3⟩, some ⟨4, 5, 6⟩, some ⟨1, 0, 0, 0⟩, true⟩
        ImuMsg.zeroMsg).1) rfl).1

/-- C8: the frame identifier is resolved exactly once, at construction, from
the parameter collaborator under the name `frame_id` with member default
"imu_link", and every message published during a run of the node carries
that resolved value in its header. -/
theorem claim_C8_frame_id (param : Option String) (ts : List TickInput) :
    (construct param).frameId = resolveFrameId param ∧
    resolveFrameId none = "imu_link" ∧
    (∀ p ∈ (runTicks (construct param).frameId (construct param).imuMsg ts).2,
      ∀ out, p.2.published = some out →
        out.header.frame_id = resolveFrameId param) := by
  refine ⟨rfl, rfl, ?_⟩
  intro p hp out hout
  obtain ⟨m0, hm⟩ := runTicks_effects_mem (construct param).frameId ts
    (construct param).imuMsg p hp
  rw [hm] at hout
  exact (published_fields_eq (construct param).frameId p.1 m0 out hout).2.2.2.2

/-- Witness for C8: with an override "base_link" supplied by the parameter
collaborator, the one message of a one-tick run carries "base_link". -/
theorem claim_C8_witness :
    ((timer_callback (construct (some "base_link")).frameId
        ⟨7, some ⟨1, 2, 3⟩, some ⟨4, 5, 6⟩, some ⟨1, 0, 0, 0⟩, true⟩
        (construct (some "base_link")).imuMsg).1).header.frame_id
      = resolveFrameId (some "base_link") :=
  (claim_C8_frame_id (some "base_link")
    [⟨7, some ⟨1, 2, 3⟩, some ⟨4, 5, 6⟩, some ⟨1, 0, 0, 0⟩, true⟩]).2.2
    (⟨7, some ⟨1, 2, 3⟩, some ⟨4, 5, 6⟩, some ⟨1, 0, 0, 0⟩, true⟩,
      (timer_callback (construct (some "base_link")).frameId
        ⟨7, some ⟨1, 2, 3⟩, some ⟨4, 5, 6⟩, some ⟨1, 0, 0, 0⟩, true⟩
        (construct (some "base_link")).imuMsg).2)
    (by simp [runTicks])
    ((timer_callback (construct (some "base_link")).frameId
        ⟨7, some ⟨1, 2, 3⟩, some ⟨4, 5, 6⟩, some ⟨1, 0, 0, 0⟩, true⟩
        (construct (some "base_link")).imuMsg).1) rfl

/-- C7: for each of the three startup-argument failure cases — an argument
count other than two positionals (argc != 3), an address string on which the
hexadecimal conversion raises `std::invalid_argument`, or a converted value
above 255 — the process exits with the non-zero status -1 and makes no
sensor-open attempt, whatever the supervisor-loop environment would have
been. -/
theorem claim_C7_startup_failures (args : List String) (env : List IterEnv)
    (h : args.length ≠ 3 ∨
         stoul16 (args.getD 2 "") = Except.error StoulError.invalidArgument ∨
         ∃ v, stoul16 (args.getD 2 "") = Except.ok v ∧ 255 < v) :
    (mainRun args env).exitCode = some (-1) ∧
    (mainRun args env).openAttempts = 0 := by
  have hs : startup args = StartupResult.exitError := by
    unfold startup
    rcases h with h | h | ⟨v, hv, h255⟩
    · rw [if_pos h]
    · by_cases hlen : args.length = 3
      · rw [if_neg (by omega), h]
      · rw [if_pos hlen]
    · by_cases hlen : args.length = 3
      · rw [if_neg (by omega), hv]
        exact if_pos h255
      · rw [if_pos hlen]
  simp [mainRun, hs]

/-- Witness for C7 on the non-hexadecimal address "ZZ". -/
theorem claim_C7_witness :
    (mainRun ["bno055_node", "/dev/i2c-1", "ZZ"] []).exitCode = some (-1) ∧
    (mainRun ["bno055_node", "/dev/i2c-1", "ZZ"] []).openAttempts = 0 :=
  claim_C7_startup_failures ["bno055_node", "/dev/i2c-1", "ZZ"] []
    (Or.inr (Or.inl rfl))

/-- C10: the conversion handler catches only the not-a-number failure: on the
syntactically valid hexadecimal address "10000000000000000" (value 2^64,
above ULONG_MAX) the conversion raises the out-of-range error, which the
`std::invalid_argument` handler does not catch, so the process terminates
abnormally and never reaches the handled invalid-address exit path. -/
theorem claim_C10_out_of_range_uncaught :
    stoul16 "10000000000000000" = Except.error StoulError.outOfRange ∧
    mainRun ["bno055_node", "/dev/i2c-1", "10000000000000000"] [] =
      { exitCode := none, openAttempts := 0 } :=
  ⟨rfl, rfl⟩

/-- C1 (code bug): the covariance loop condition `i % 3 == 0` holds at
indices 0, 3 and 6 — the first column of a row-major 3x3 matrix — not at the
diagonal indices 0, 4 and 8 the claim states. At construction each matrix is
[c, 0, 0, c, 0, 0, c, 0, 0]: diagonal indices 4 and 8 hold zero and
off-diagonal indices 3 and 6 hold the per-matrix constant. -/
theorem claim_C1_covariance_column_not_diagonal :
    (construct none).imuMsg.linear_acceleration_covariance =
      [6753 / 100000000, 0, 0, 6753 / 100000000, 0, 0, 6753 / 100000000, 0, 0] ∧
    (construct none).imuMsg.angular_velocity_covariance =
      [305 / 100000000, 0, 0, 305 / 100000000, 0, 0, 305 / 100000000, 0, 0] ∧
    (construct none).imuMsg.orientation_covariance =
      [159 / 10000, 0, 0, 159 / 10000, 0, 0, 159 / 10000, 0, 0] ∧
    (construct none).imuMsg.linear_acceleration_covariance.getD 4 0 = 0 ∧
    (construct none).imuMsg.linear_acceleration_covariance.getD 8 0 = 0 ∧
    (construct none).imuMsg.linear_acceleration_covariance.getD 3 0
      = 6753 / 100000000 :=
  ⟨rfl, rfl, rfl, rfl, rfl, rfl⟩

/-- C2 (code bug): the supervisor loop has no break after a successful
construction. On the trace where `rclcpp::ok()` holds for two iterations and
the sensor opens both times, a second node is constructed — a second
sensor-open attempt — after the first success, contradicting the claim that
the first success ends construction attempts; also one open attempt is made
on a single failing iteration, the per-iteration part the code does satisfy. -/
theorem claim_C2_no_break_after_success :
    (supervisorRun [⟨true, true⟩, ⟨true, true⟩] false).nodesConstructed = 2 ∧
    (supervisorRun [⟨true, true⟩, ⟨true, true⟩] false).openAttempts = 2 ∧
    (supervisorRun [⟨true, false⟩] false).openAttempts = 1 := by
  decide

/-- C3 (code bug): because the loop re-attempts construction after a success,
the second node is fully constructed (its sensor handle open) before the
shared-pointer assignment releases the first: on the trace where both of two
iterations construct successfully, two MinimalPublisher instances are live
at one moment, refuting the at-most-one-live-node invariant. -/
theorem claim_C3_two_nodes_live :
    (supervisorRun [⟨true, true⟩, ⟨true, true⟩] false).maxLiveNodes = 2 := by
  decide

end BNO055
